import Mathlib

/-!
Verification of the WhaleVault backend core: the unshield-and-swap saga
(`backend/api/routes/swap.py`), the relayer service
(`backend/services/relayer_service.py`), the proof-job queue
(`backend/proof_queue/job_queue.py`) and the Raydium retry policy
(`backend/services/raydium_service.py`).

The Python code is shallowly embedded: every external call (RPC, swap
aggregator, chain submission) is an outcome supplied by an environment
record, and each function returns, next to its Python return value, the
list of fund-moving side effects (`Action`) it performed, in order.
Python `int` is embedded as `Int` (with `Int.fdiv` for `//`), `str` as
`String`, `bytes` as `List Nat`, raised exceptions as `Except`.
-/

namespace WhaleVault

/-- Fund-moving / transaction-submitting side effects of the saga, with the
amounts they carry (lamports or token base units). -/
inductive Action where
  | airdropRequest (lamports : Int)
  | unshieldSubmit (amount : Int)
  | swapSubmit
  | ataCreate
  | tokenTransfer (amount : Int)
  | solSend (lamports : Int)
deriving Repr, DecidableEq

/-! ## `utils/errors.py` (module not present in the tree) -/

/-- Modelled from the spec: `utils/errors.py` is not in the tree.  §7 of the
spec says a RelayerError is "classified (disabled service / invalid input /
chain rejection)". -/
inductive RelayerErrorKind where
  | disabledService
  | invalidInput
  | chainRejection
deriving Repr, DecidableEq

/-- Modelled from the spec: `utils/errors.py` is not in the tree.  §7 says a
RelayerError "carries a status classification"; `swap.py` and `relay.py` read
`e.status_code` and `e.message`.  The concrete codes below are the spec's
recommended classes (service unavailable / bad input / bad gateway); no claim
depends on the exact numbers. -/
structure RelayerError where
  kind : RelayerErrorKind
  message : String
deriving Repr, DecidableEq

def RelayerError.status_code (e : RelayerError) : Nat :=
  match e.kind with
  | .disabledService => 503
  | .invalidInput => 400
  | .chainRejection => 502

/-- `fastapi.HTTPException` as raised by the route handlers. -/
structure HTTPException where
  status_code : Nat
  detail : String
deriving Repr, DecidableEq

/-! ## `services/relayer_service.py` -/

/-- `RelayResult` dataclass (relayer_service.py lines 21-28). -/
structure RelayResult where
  signature : String
  fee_paid : Int
  amount_sent : Int
  recipient : String
deriving Repr, DecidableEq

/-- The relayer service configuration read from settings
(`RelayerService.__init__`). -/
structure RelayerSvc where
  enabled : Bool
  fee_bps : Int
deriving Repr, DecidableEq

/-- `RelayerService.calculate_fee` (relayer_service.py lines 83-95):
`fee = (amount * self.fee_bps) // 10000; return max(fee, 5000)`.
Python `//` is floor division, hence `Int.fdiv`. -/
def calculate_fee (svc : RelayerSvc) (amount : Int) : Int :=
  let fee := Int.fdiv (amount * svc.fee_bps) 10000
  max fee 5000

/-- `RelayerService.calculate_amount_after_fee` (lines 97-108). -/
def calculate_amount_after_fee (svc : RelayerSvc) (amount : Int) : Int :=
  let fee := calculate_fee svc amount
  amount - fee

/-- `RelayerService.relay_unshield` (relayer_service.py lines 110-181).
`pubkeyValid recipient` embeds whether `Pubkey.from_string(recipient)`
succeeds; `submitOutcome` is the outcome of
`client.submit_unshield_transaction` (the raised exception's text, or the
returned signature).  The returned `List Action` records the submission
attempt; the validation failures return before it. -/
def relay_unshield (svc : RelayerSvc) (pubkeyValid : String → Bool)
    (submitOutcome : Except String String)
    (nullifier : List Nat) (recipient : String) (amount : Int)
    (_proof : List Nat) (_denomination : Int) :
    Except RelayerError RelayResult × List Action :=
  if !svc.enabled then
    (.error ⟨.disabledService, "Relayer is disabled"⟩, [])
  else if nullifier.length ≠ 32 then
    (.error ⟨.invalidInput, "Invalid nullifier length"⟩, [])
  else if !pubkeyValid recipient then
    (.error ⟨.invalidInput, "Invalid recipient address: " ++ recipient⟩, [])
  else
    let fee := calculate_fee svc amount
    -- `amount_after_fee` is computed in the source but not used: the MVP
    -- forwards the full amount and tracks the fee off-chain.
    match submitOutcome with
    | .error e =>
        (.error ⟨.chainRejection, "Failed to submit transaction: " ++ e⟩,
         [.unshieldSubmit amount])
    | .ok signature =>
        (.ok ⟨signature, fee, amount, recipient⟩, [.unshieldSubmit amount])

/-! ## Claims C4, C10, C5 -/

/-- C4: for every amount, `calculate_fee amount = max(floor(amount*feeBps/10000),
5000)`, hence the fee is always at least the minimum fee 5000 lamports, and
`calculate_amount_after_fee amount = amount - calculate_fee amount`.  (Proved
for all integer amounts, in particular every non-negative one.) -/
theorem C4_fee_formula (svc : RelayerSvc) (amount : Int) :
    calculate_fee svc amount = max (Int.fdiv (amount * svc.fee_bps) 10000) 5000
    ∧ 5000 ≤ calculate_fee svc amount
    ∧ calculate_amount_after_fee svc amount = amount - calculate_fee svc amount := by
  refine ⟨rfl, ?_, rfl⟩
  exact le_max_right _ _

/-- C10: a successful `relay_unshield` reports `amount_sent` equal to the full
input amount, `fee_paid` equal to the calculated fee, and since the fee is
always positive, `amount_sent ≠ amount - fee_paid`: the fee is reported but
never deducted from the forwarded amount. -/
theorem C10_amount_sent_full (svc : RelayerSvc) (pubkeyValid : String → Bool)
    (submitOutcome : Except String String) (nullifier : List Nat)
    (recipient : String) (amount : Int) (proof : List Nat) (denom : Int)
    (r : RelayResult) (acts : List Action)
    (h : relay_unshield svc pubkeyValid submitOutcome nullifier recipient
          amount proof denom = (.ok r, acts)) :
    r.amount_sent = amount ∧ r.fee_paid = calculate_fee svc amount
    ∧ 0 < r.fee_paid ∧ r.amount_sent ≠ amount - r.fee_paid := by
  by_cases hen : svc.enabled
  case neg => simp [relay_unshield, hen] at h
  by_cases hn : nullifier.length = 32
  case neg => simp [relay_unshield, hen, hn] at h
  by_cases hp : pubkeyValid recipient
  case neg => simp [relay_unshield, hen, hn, hp] at h
  cases hs : submitOutcome with
  | error e => simp [relay_unshield, hen, hn, hp, hs] at h
  | ok sig =>
    simp only [relay_unshield, hen, hn, hp, hs, Bool.not_true, Bool.false_eq_true,
      if_false, if_neg, ite_false, Prod.mk.injEq, not_true_eq_false,
      Bool.true_eq_false, if_true] at h
    have hr : Except.ok (ε := RelayerError)
        (⟨sig, calculate_fee svc amount, amount, recipient⟩ : RelayResult) = .ok r := by
      have h1 := congrArg Prod.fst h
      simpa [relay_unshield, hen, hn, hp, hs] using h1
    have hr2 : r = ⟨sig, calculate_fee svc amount, amount, recipient⟩ :=
      (Except.ok.inj hr).symm
    subst hr2
    have hfee : (5000 : Int) ≤ calculate_fee svc amount := le_max_right _ _
    refine ⟨rfl, rfl, by simpa using lt_of_lt_of_le (by norm_num) hfee, ?_⟩
    simp only
    omega

/-- C10 witness: a concrete successful relay call. -/
theorem C10_amount_sent_full_witness :
    (⟨"sig", 5000, 1000000, "r"⟩ : RelayResult).amount_sent = 1000000
    ∧ (⟨"sig", 5000, 1000000, "r"⟩ : RelayResult).fee_paid
        = calculate_fee ⟨true, 30⟩ 1000000
    ∧ (0 : Int) < (⟨"sig", 5000, 1000000, "r"⟩ : RelayResult).fee_paid
    ∧ (⟨"sig", 5000, 1000000, "r"⟩ : RelayResult).amount_sent
        ≠ 1000000 - (⟨"sig", 5000, 1000000, "r"⟩ : RelayResult).fee_paid :=
  C10_amount_sent_full ⟨true, 30⟩ (fun _ => true) (.ok "sig")
    (List.replicate 32 0) "r" 1000000 [] 0 ⟨"sig", 5000, 1000000, "r"⟩
    [.unshieldSubmit 1000000] (by rfl)

/-- C5: `relay_unshield` fails fast with a classified error and no submission
side effect when the service is disabled, the nullifier is not 32 bytes, or
the recipient is ill-formed; on a successful submission it returns a
`RelayResult`; a chain rejection is raised as a classified error, never
returned as a result. -/
theorem C5_relay_unshield_classified (svc : RelayerSvc)
    (pubkeyValid : String → Bool) (submitOutcome : Except String String)
    (nullifier : List Nat) (recipient : String) (amount : Int)
    (proof : List Nat) (denom : Int) :
    (svc.enabled = false →
      relay_unshield svc pubkeyValid submitOutcome nullifier recipient amount proof denom
        = (.error ⟨.disabledService, "Relayer is disabled"⟩, []))
    ∧ (svc.enabled = true → nullifier.length ≠ 32 →
      relay_unshield svc pubkeyValid submitOutcome nullifier recipient amount proof denom
        = (.error ⟨.invalidInput, "Invalid nullifier length"⟩, []))
    ∧ (svc.enabled = true → nullifier.length = 32 → pubkeyValid recipient = false →
      relay_unshield svc pubkeyValid submitOutcome nullifier recipient amount proof denom
        = (.error ⟨.invalidInput, "Invalid recipient address: " ++ recipient⟩, []))
    ∧ (∀ sig, svc.enabled = true → nullifier.length = 32 → pubkeyValid recipient = true →
      submitOutcome = .ok sig →
      relay_unshield svc pubkeyValid submitOutcome nullifier recipient amount proof denom
        = (.ok ⟨sig, calculate_fee svc amount, amount, recipient⟩,
           [.unshieldSubmit amount]))
    ∧ (∀ e, svc.enabled = true → nullifier.length = 32 → pubkeyValid recipient = true →
      submitOutcome = .error e →
      relay_unshield svc pubkeyValid submitOutcome nullifier recipient amount proof denom
        = (.error ⟨.chainRejection, "Failed to submit transaction: " ++ e⟩,
           [.unshieldSubmit amount])) := by
  refine ⟨?_, ?_, ?_, ?_, ?_⟩
  · intro h; simp [relay_unshield, h]
  · intro h hn; simp [relay_unshield, h, hn]
  · intro h hn hp; simp [relay_unshield, h, hn, hp]
  · intro sig h hn hp hs; subst hs; simp [relay_unshield, h, hn, hp]
  · intro e h hn hp hs; subst hs; simp [relay_unshield, h, hn, hp]

/-- C5 witness: the disabled-service case at a concrete input. -/
theorem C5_relay_unshield_classified_witness :
    relay_unshield ⟨false, 30⟩ (fun _ => true) (.ok "sig")
      (List.replicate 32 0) "r" 5 [] 0
      = (.error ⟨.disabledService, "Relayer is disabled"⟩, []) := by
  exact (C5_relay_unshield_classified ⟨false, 30⟩ (fun _ => true) (.ok "sig")
    (List.replicate 32 0) "r" 5 [] 0).1 rfl

/-! ## `proof_queue/job_queue.py` -/

/-- `JobStatus` enum (job_queue.py lines 12-18). -/
inductive JobStatus where
  | pending
  | processing
  | completed
  | failed
deriving Repr, DecidableEq

/-- A Python value looked up from the job-result dict: the endpoints only ask
whether it is a `str` and what that string is. -/
inductive JVal where
  | str (s : String)
  | nonStr
deriving Repr, DecidableEq

/-- The job-result dict as consumed by the swap endpoints: the `"proof"` and
`"nullifier"` entries (absent → `none`), plus whether any other keys exist
(`"publicInputs"`, `"verified"`, ...), which matters only for Python
truthiness of the dict. -/
structure ResultDict where
  proof : Option JVal
  nullifier : Option JVal
  hasOtherKeys : Bool
deriving Repr, DecidableEq

def ResultDict.isEmptyDict (d : ResultDict) : Bool :=
  d.proof.isNone && d.nullifier.isNone && !d.hasOtherKeys

/-- The `result` field of a `ProofJob`: a dict, or (defensively checked by the
endpoints) some non-dict value with the given Python truthiness. -/
inductive ResultVal where
  | dict (d : ResultDict)
  | nonDict (truthy : Bool)
deriving Repr, DecidableEq

/-- Python truthiness of a job-result value (`if not job.result`). -/
def ResultVal.truthy : ResultVal → Bool
  | .dict d => !d.isEmptyDict
  | .nonDict t => t

/-- `ProofJob` dataclass (job_queue.py lines 21-38). -/
structure ProofJob where
  id : String
  status : JobStatus := .pending
  progress : Int := 0
  stage : Option String := none
  created_at : Int := 0
  result : Option ResultVal := none
  error : Option String := none
  commitment : String := ""
  secret : String := ""
  amount : Int := 0
  recipient : String := ""
  denomination : Int := 0
deriving Repr, DecidableEq

/-- The job record created by `ProofJobQueue.submit` (lines 87-113). -/
def submitJob (id commitment secret : String) (amount : Int) (recipient : String)
    (denomination : Int) (now : Int) : ProofJob :=
  { id := id, status := .pending, progress := 0, stage := some "queued",
    created_at := now, result := none, error := none,
    commitment := commitment, secret := secret, amount := amount,
    recipient := recipient, denomination := denomination }

/-- Outcome of `VeilService.generate_proof` inside `_process_job`: a proof
result, a domain error (`ValidationError` / `VeilError`, whose classes live in
the absent `utils/errors.py`; only the catch-site matters here), or any other
exception with its message. -/
inductive ProcOutcome where
  | success (proof publicInputs nullifier : String)
  | domainErr (msg : String)
  | otherErr (msg : String)
deriving Repr, DecidableEq

/-- `ProofJobQueue._process_job` (job_queue.py lines 133-194), as the sequence
of externally observable snapshots of the job record: one snapshot after each
lock-guarded mutation, starting from the submitted record.  The progress
checkpoints are 10/30/60/90/100 with their stage labels; on success the result
dict carries `proof`, `publicInputs`, `nullifier`, `verified`; a domain error
is recorded verbatim, any other exception as the fixed generic message. -/
def processTrace (j : ProofJob) (oc : ProcOutcome) : List ProofJob :=
  let s1 := { j with status := JobStatus.processing }
  let s2 := { s1 with progress := 10, stage := some "initializing" }
  let s3 := { s2 with progress := 30, stage := some "generating_witnesses" }
  let s4 := { s3 with progress := 60, stage := some "computing_proof" }
  match oc with
  | .success proof _publicInputs nullifier =>
      let s5 := { s4 with progress := 90, stage := some "verifying_proof" }
      let s6 := { s5 with progress := 100, stage := some "finalizing" }
      let s7 := { s6 with
        status := JobStatus.completed
        result := some (.dict ⟨some (.str proof), some (.str nullifier), true⟩) }
      [j, s1, s2, s3, s4, s5, s6, s7]
  | .domainErr m =>
      [j, s1, s2, s3, s4, { s4 with status := JobStatus.failed, error := some m }]
  | .otherErr _m =>
      [j, s1, s2, s3, s4,
       { s4 with
         status := JobStatus.failed
         error := some "Proof generation failed unexpectedly" }]

/-- Rank of a status in the one-directional lifecycle order. -/
def statusRank : JobStatus → Nat
  | .pending => 0
  | .processing => 1
  | .completed => 2
  | .failed => 2

/-! ## Claims C6, C7 -/

/-- C6: when processing fails with a domain error (`ValidationError` /
`VeilError`) the recorded job error is that error's message verbatim; for any
other exception the recorded error is the fixed generic message, identical
across any two exception messages and any two jobs (so independent of the
exception's content and of the job's secret inputs). -/
theorem C6_error_sanitization (j1 j2 : ProofJob) (m m1 m2 : String) :
    (∃ s, (processTrace j1 (.domainErr m)).getLast? = some s
      ∧ s.error = some m ∧ s.status = .failed)
    ∧ (∃ s, (processTrace j1 (.otherErr m1)).getLast? = some s
      ∧ s.error = some "Proof generation failed unexpectedly" ∧ s.status = .failed)
    ∧ (processTrace j1 (.otherErr m1)).getLast?.map ProofJob.error
        = (processTrace j2 (.otherErr m2)).getLast?.map ProofJob.error := by
  refine ⟨?_, ?_, ?_⟩
  · simp only [processTrace, List.getLast?_cons_cons, List.getLast?_singleton]
    exact ⟨_, rfl, rfl, rfl⟩
  · simp only [processTrace, List.getLast?_cons_cons, List.getLast?_singleton]
    exact ⟨_, rfl, rfl, rfl⟩
  · simp [processTrace, List.getLast?_cons_cons, List.getLast?_singleton]

/-- C7: for a freshly submitted job, every observable snapshot sequence of its
processing is status-monotonic (PENDING, then PROCESSING, ending in exactly
one terminal state reached only at the last snapshot), and at every snapshot
`result` is present iff the status is COMPLETED and `error` is present iff the
status is FAILED. -/
theorem C7_lifecycle_invariants (j : ProofJob) (oc : ProcOutcome)
    (hst : j.status = .pending) (hres : j.result = none) (herr : j.error = none) :
    List.Chain' (fun a b => statusRank a.status ≤ statusRank b.status)
      (processTrace j oc)
    ∧ (∀ s ∈ (processTrace j oc).dropLast,
        s.status ≠ .completed ∧ s.status ≠ .failed)
    ∧ (∃ s, (processTrace j oc).getLast? = some s
        ∧ (s.status = .completed ∨ s.status = .failed))
    ∧ (∀ s ∈ processTrace j oc,
        (s.result.isSome ↔ s.status = .completed)
        ∧ (s.error.isSome ↔ s.status = .failed)) := by
  cases oc <;>
    simp_all [processTrace, statusRank, List.chain'_cons, List.forall_mem_cons]

/-- C7 witness: the lifecycle invariants at a concrete fresh job and a
concrete processing outcome. -/
theorem C7_lifecycle_invariants_witness :
    List.Chain' (fun a b => statusRank a.status ≤ statusRank b.status)
      (processTrace (submitJob "id0" "c" "s" 2000000000 "r" 0 0)
        (.success "p" "pi" "n"))
    ∧ (∀ s ∈ (processTrace (submitJob "id0" "c" "s" 2000000000 "r" 0 0)
        (.success "p" "pi" "n")).dropLast,
        s.status ≠ .completed ∧ s.status ≠ .failed)
    ∧ (∃ s, (processTrace (submitJob "id0" "c" "s" 2000000000 "r" 0 0)
        (.success "p" "pi" "n")).getLast? = some s
        ∧ (s.status = .completed ∨ s.status = .failed))
    ∧ (∀ s ∈ processTrace (submitJob "id0" "c" "s" 2000000000 "r" 0 0)
        (.success "p" "pi" "n"),
        (s.result.isSome ↔ s.status = .completed)
        ∧ (s.error.isSome ↔ s.status = .failed)) :=
  C7_lifecycle_invariants (submitJob "id0" "c" "s" 2000000000 "r" 0 0)
    (.success "p" "pi" "n") rfl rfl rfl

/-! ## `services/raydium_service.py` — retry policy -/

def MAX_RETRIES : Nat := 3

/-- `RETRY_DELAY_SECONDS = 1.0` (exact in binary floating point, embedded as a
rational). -/
def RETRY_DELAY_SECONDS : ℚ := 1

/-- `RETRY_BACKOFF_MULTIPLIER = 2.0`. -/
def RETRY_BACKOFF_MULTIPLIER : ℚ := 2

/-- Classification of one HTTP attempt inside `_request_with_retry`
(raydium_service.py lines 128-225): a below-400 response, a 5xx response, a
429 response, another 4xx response, or one of the `RETRYABLE_EXCEPTIONS`
network failures. -/
inductive AttemptOutcome where
  | ok
  | serverErr (code : Nat)
  | rateLimited
  | clientErr (code : Nat)
  | netErr
deriving Repr, DecidableEq

/-- How `_request_with_retry` terminates: a returned response, an immediately
raised non-transient `RaydiumAPIError` (other 4xx), or the transient
`RaydiumAPIError` raised after all retries are exhausted. -/
inductive RetryResult where
  | success (attemptIdx : Nat)
  | permErr (code : Nat)
  | exhausted
deriving Repr, DecidableEq

/-- Observable behaviour of one `_request_with_retry` run: its result, the
number of HTTP attempts actually made, and the waits slept between attempts,
in order (seconds). -/
structure RetryTrace where
  result : RetryResult
  attempts : Nat
  sleeps : List ℚ
deriving Repr, DecidableEq

/-- The retry loop of `_request_with_retry`: `fuel` is the number of loop
iterations left (`max_retries + 1` at entry), `attempt` the current attempt
index, `d` the current `delay`.  A 5xx raises `HTTPStatusError` and is caught
by the retry handler (sleep `d`, then `delay *= 2`); a 429 first doubles
`delay` inside the `try` block, so the handler sleeps `2*d` and the next
attempt starts from `(2*d)*2`; a `RETRYABLE_EXCEPTIONS` failure sleeps `d`
then doubles; another 4xx raises a non-transient `RaydiumAPIError` which no
handler catches; when `attempt = max_retries` (i.e. no fuel remains) a
transient failure falls out of the loop and the transient 503
`RaydiumAPIError` is raised. -/
def retryGo (outs : Nat → AttemptOutcome) : Nat → Nat → ℚ → RetryTrace
  | 0, _attempt, _d => ⟨.exhausted, 0, []⟩
  | fuel + 1, attempt, d =>
    match outs attempt with
    | .ok => ⟨.success attempt, 1, []⟩
    | .clientErr c => ⟨.permErr c, 1, []⟩
    | .netErr =>
        if fuel = 0 then ⟨.exhausted, 1, []⟩
        else
          let t := retryGo outs fuel (attempt + 1) (d * RETRY_BACKOFF_MULTIPLIER)
          ⟨t.result, t.attempts + 1, d :: t.sleeps⟩
    | .serverErr _ =>
        if fuel = 0 then ⟨.exhausted, 1, []⟩
        else
          let t := retryGo outs fuel (attempt + 1) (d * RETRY_BACKOFF_MULTIPLIER)
          ⟨t.result, t.attempts + 1, d :: t.sleeps⟩
    | .rateLimited =>
        if fuel = 0 then ⟨.exhausted, 1, []⟩
        else
          let t := retryGo outs fuel (attempt + 1) ((d * 2) * RETRY_BACKOFF_MULTIPLIER)
          ⟨t.result, t.attempts + 1, (d * 2) :: t.sleeps⟩

/-- `RaydiumService._request_with_retry` with the default
`max_retries = MAX_RETRIES`. -/
def request_with_retry (outs : Nat → AttemptOutcome) : RetryTrace :=
  retryGo outs (MAX_RETRIES + 1) 0 RETRY_DELAY_SECONDS

theorem retryGo_attempts_le (outs : Nat → AttemptOutcome) :
    ∀ (fuel attempt : Nat) (d : ℚ),
      (retryGo outs fuel attempt d).attempts ≤ fuel := by
  intro fuel
  induction fuel with
  | zero => intro attempt d; simp [retryGo]
  | succ n ih =>
    intro attempt d
    simp only [retryGo]
    cases outs attempt <;> simp only
    · exact Nat.succ_le_succ (Nat.zero_le n)
    · by_cases h : n = 0
      · simp [h]
      · simp only [h, if_false]
        exact Nat.succ_le_succ (ih (attempt + 1) _)
    · by_cases h : n = 0
      · simp [h]
      · simp only [h, if_false]
        exact Nat.succ_le_succ (ih (attempt + 1) _)
    · exact Nat.succ_le_succ (Nat.zero_le n)
    · by_cases h : n = 0
      · simp [h]
      · simp only [h, if_false]
        exact Nat.succ_le_succ (ih (attempt + 1) _)

theorem retryGo_sleeps_ge (outs : Nat → AttemptOutcome) :
    ∀ (fuel attempt : Nat) (d : ℚ), 0 ≤ d →
      ∀ i, i < (retryGo outs fuel attempt d).sleeps.length →
        d * RETRY_BACKOFF_MULTIPLIER ^ i ≤ (retryGo outs fuel attempt d).sleeps.getD i 0 := by
  intro fuel
  induction fuel with
  | zero => intro attempt d _ i hi; simp [retryGo] at hi
  | succ n ih =>
    intro attempt d hd i hi
    simp only [retryGo] at hi ⊢
    cases houts : outs attempt <;> simp only [houts] at hi ⊢
    · simp at hi
    · by_cases h : n = 0
      · simp [h] at hi
      · simp only [h, if_false] at hi ⊢
        cases i with
        | zero => simp [RETRY_BACKOFF_MULTIPLIER]
        | succ k =>
          simp only [List.length_cons, Nat.add_lt_add_iff_right] at hi
          simp only [List.getD_cons_succ]
          have hd2 : (0 : ℚ) ≤ d * RETRY_BACKOFF_MULTIPLIER := by
            have : (0 : ℚ) ≤ RETRY_BACKOFF_MULTIPLIER := by norm_num [RETRY_BACKOFF_MULTIPLIER]
            positivity
          have := ih (attempt + 1) (d * RETRY_BACKOFF_MULTIPLIER) hd2 k hi
          calc d * RETRY_BACKOFF_MULTIPLIER ^ (k + 1)
              = (d * RETRY_BACKOFF_MULTIPLIER) * RETRY_BACKOFF_MULTIPLIER ^ k := by ring
            _ ≤ _ := this
    · by_cases h : n = 0
      · simp [h] at hi
      · simp only [h, if_false] at hi ⊢
        cases i with
        | zero =>
          simp only [List.getD_cons_zero, pow_zero, mul_one]
          linarith
        | succ k =>
          simp only [List.length_cons, Nat.add_lt_add_iff_right] at hi
          simp only [List.getD_cons_succ]
          have hd2 : (0 : ℚ) ≤ (d * 2) * RETRY_BACKOFF_MULTIPLIER := by
            simp only [RETRY_BACKOFF_MULTIPLIER]
            linarith
          have := ih (attempt + 1) ((d * 2) * RETRY_BACKOFF_MULTIPLIER) hd2 k hi
          have hmono : d * RETRY_BACKOFF_MULTIPLIER ^ (k + 1)
              ≤ ((d * 2) * RETRY_BACKOFF_MULTIPLIER) * RETRY_BACKOFF_MULTIPLIER ^ k := by
            have hpow : (0 : ℚ) ≤ RETRY_BACKOFF_MULTIPLIER ^ k := by
              simp only [RETRY_BACKOFF_MULTIPLIER]
              positivity
            have : d * RETRY_BACKOFF_MULTIPLIER ^ (k + 1)
                = (d * RETRY_BACKOFF_MULTIPLIER) * RETRY_BACKOFF_MULTIPLIER ^ k := by ring
            rw [this]
            have : d * RETRY_BACKOFF_MULTIPLIER ≤ (d * 2) * RETRY_BACKOFF_MULTIPLIER := by
              norm_num [RETRY_BACKOFF_MULTIPLIER]; linarith
            exact mul_le_mul_of_nonneg_right this hpow
          exact le_trans hmono this
    · simp at hi
    · by_cases h : n = 0
      · simp [h] at hi
      · simp only [h, if_false] at hi ⊢
        cases i with
        | zero => simp [RETRY_BACKOFF_MULTIPLIER]
        | succ k =>
          simp only [List.length_cons, Nat.add_lt_add_iff_right] at hi
          simp only [List.getD_cons_succ]
          have hd2 : (0 : ℚ) ≤ d * RETRY_BACKOFF_MULTIPLIER := by
            have : (0 : ℚ) ≤ RETRY_BACKOFF_MULTIPLIER := by norm_num [RETRY_BACKOFF_MULTIPLIER]
            positivity
          have := ih (attempt + 1) (d * RETRY_BACKOFF_MULTIPLIER) hd2 k hi
          calc d * RETRY_BACKOFF_MULTIPLIER ^ (k + 1)
              = (d * RETRY_BACKOFF_MULTIPLIER) * RETRY_BACKOFF_MULTIPLIER ^ k := by ring
            _ ≤ _ := this

/-! ## Claim C8 -/

/-- C8: the retry loop makes at most `MAX_RETRIES + 1 = 4` attempts; the wait
before the `i+1`-st retry is at least `d * m ^ i` with `d = 1.0` and
`m = 2.0`; a 429 response doubles the delay once (the recorded wait is `2*d`)
before the multiplier applies towards the next attempt (whose delay is
`(2*d)*m`); and a non-429 4xx error is raised immediately, never retried. -/
theorem C8_retry_policy (outs : Nat → AttemptOutcome) :
    (request_with_retry outs).attempts ≤ MAX_RETRIES + 1
    ∧ (∀ i, i < (request_with_retry outs).sleeps.length →
        RETRY_DELAY_SECONDS * RETRY_BACKOFF_MULTIPLIER ^ i
          ≤ (request_with_retry outs).sleeps.getD i 0)
    ∧ (∀ fuel attempt d, fuel ≠ 0 → outs attempt = .rateLimited →
        retryGo outs (fuel + 1) attempt d
          = ⟨(retryGo outs fuel (attempt + 1) ((d * 2) * RETRY_BACKOFF_MULTIPLIER)).result,
             (retryGo outs fuel (attempt + 1) ((d * 2) * RETRY_BACKOFF_MULTIPLIER)).attempts + 1,
             (d * 2) :: (retryGo outs fuel (attempt + 1) ((d * 2) * RETRY_BACKOFF_MULTIPLIER)).sleeps⟩)
    ∧ (∀ c, outs 0 = .clientErr c →
        request_with_retry outs = ⟨.permErr c, 1, []⟩) := by
  refine ⟨retryGo_attempts_le outs (MAX_RETRIES + 1) 0 RETRY_DELAY_SECONDS, ?_, ?_, ?_⟩
  · intro i hi
    exact retryGo_sleeps_ge outs (MAX_RETRIES + 1) 0 RETRY_DELAY_SECONDS
      (by norm_num [RETRY_DELAY_SECONDS]) i hi
  · intro fuel attempt d hfuel houts
    simp [retryGo, houts, hfuel]
  · intro c houts
    simp [request_with_retry, retryGo, houts, MAX_RETRIES]

/-- C8 witness: the attempt bound at an always-rate-limited endpoint, and the
no-retry behaviour at a concrete permanent 404. -/
theorem C8_retry_policy_witness :
    (request_with_retry (fun _ => AttemptOutcome.rateLimited)).attempts ≤ MAX_RETRIES + 1
    ∧ request_with_retry (fun _ => AttemptOutcome.clientErr 404)
        = ⟨.permErr 404, 1, []⟩ :=
  ⟨(C8_retry_policy (fun _ => AttemptOutcome.rateLimited)).1,
   (C8_retry_policy (fun _ => AttemptOutcome.clientErr 404)).2.2.2 404 rfl⟩

/-! ## `api/routes/swap.py` -/

def SOL_MINT : String := "So11111111111111111111111111111111111111112"

def MAX_TRANSFER_RETRIES : Nat := 3

def MIN_RELAYER_BALANCE_LAMPORTS : Int := 2000000000

def AIRDROP_AMOUNT_LAMPORTS : Int := 2000000000

/-- `MIN_SOL_RESERVE = 5000` inside `_handle_swap_failure_with_sol_fallback`. -/
def MIN_SOL_RESERVE : Int := 5000

/-- `SwapExecuteRequest` (models/requests.py lines 121-137). -/
structure SwapExecuteRequest where
  job_id : String
  recipient : String
  output_mint : String
deriving Repr, DecidableEq

/-- `SwapExecuteResponse` (models/responses.py lines 150-165); the
`transferSignature` field defaults to the empty string. -/
structure SwapExecuteResponse where
  unshieldSignature : String
  swapSignature : String
  transferSignature : String := ""
  outputAmount : String
  outputMint : String
  recipient : String
  fee : Int
deriving Repr, DecidableEq

/-- A normalized aggregator quote (`QuoteResponse` in jupiter_service.py,
`RaydiumQuoteResponse` in raydium_service.py); the opaque `raw` payload is
not observable and omitted. -/
structure QuoteResponse where
  input_mint : String
  output_mint : String
  in_amount : String
  out_amount : String
  other_amount_threshold : String
  price_impact_pct : String
  slippage_bps : Int
deriving Repr, DecidableEq

/-- The `.value` string of a `JobStatus` enum member. -/
def JobStatus.value : JobStatus → String
  | .pending => "pending"
  | .processing => "processing"
  | .completed => "completed"
  | .failed => "failed"

/-- One hexadecimal digit, as `bytes.fromhex` accepts it. -/
def hexDigit? (c : Char) : Option Nat :=
  if '0' ≤ c ∧ c ≤ '9' then some (c.toNat - '0'.toNat)
  else if 'a' ≤ c ∧ c ≤ 'f' then some (c.toNat - 'a'.toNat + 10)
  else if 'A' ≤ c ∧ c ≤ 'F' then some (c.toNat - 'A'.toNat + 10)
  else none

/-- `bytes.fromhex` over a character list: pairs of hex digits, with ASCII
spaces permitted between pairs; `none` embeds the raised `ValueError`. -/
def hexPairs? : List Char → Option (List Nat)
  | [] => some []
  | ' ' :: rest => hexPairs? rest
  | c1 :: c2 :: rest =>
    match hexDigit? c1, hexDigit? c2, hexPairs? rest with
    | some h, some l, some bs => some ((h * 16 + l) :: bs)
    | _, _, _ => none
  | _ => none

/-- `bytes.fromhex(s)`. -/
def hexToBytes? (s : String) : Option (List Nat) :=
  hexPairs? s.data

/-- The proof-job validation prologue shared verbatim by `execute_swap`
(swap.py lines 380-404) and `execute_swap_devnet` (lines 493-517): job must
exist, be COMPLETED, and carry a truthy dict result whose `"proof"` and
`"nullifier"` entries are non-empty strings.  Returns the job together with
`proof_hex` and `nullifier_hex`. -/
def validateProofJob (jobLookup : Option ProofJob) :
    Except HTTPException (ProofJob × String × String) :=
  match jobLookup with
  | none => .error ⟨404, "Proof job not found"⟩
  | some job =>
    if job.status ≠ JobStatus.completed then
      .error ⟨400, "Proof job not complete (status: " ++ job.status.value ++ ")"⟩
    else match job.result with
    | none => .error ⟨500, "Proof result missing"⟩
    | some r =>
      if !r.truthy then .error ⟨500, "Proof result missing"⟩
      else match r with
      | .nonDict _ => .error ⟨500, "Invalid proof result"⟩
      | .dict d =>
        match d.proof, d.nullifier with
        | some (.str proof_hex), some (.str nullifier_hex) =>
          if proof_hex = "" ∨ nullifier_hex = "" then
            .error ⟨500, "Proof or nullifier missing from job result"⟩
          else .ok (job, proof_hex, nullifier_hex)
        | _, _ => .error ⟨500, "Proof or nullifier has invalid type"⟩

/-- Environment of `execute_swap` (swap.py lines 363-466): the outcome of each
external call the mainnet saga makes, in program order.  The relayer keypair
is assumed loadable (it is cached before any post-unshield use). -/
structure MainnetEnv where
  relayer : RelayerSvc
  relayer_public_key : String
  pubkeyValid : String → Bool
  job : Option ProofJob
  /-- `jupiter.get_quote`: the raised exception's text, or the quote. -/
  quote : Except String QuoteResponse
  /-- `client.submit_unshield_transaction` inside `relay_unshield`. -/
  unshieldSubmit : Except String String
  /-- `jupiter.get_swap_transaction` + deserialize + re-sign. -/
  swapTxBuild : Except Unit Unit
  /-- `send_raw_transaction`: `str(response.value)` or a raised exception. -/
  swapSend : Except Unit String

/-- `execute_swap` (swap.py lines 363-466), returning the HTTP outcome and the
ordered fund-moving side effects.  The `bytes.fromhex` decodes happen inside
the unshield `try` block, so a decode failure is the generic 500 path. -/
def execute_swap (env : MainnetEnv) (req : SwapExecuteRequest) :
    Except HTTPException SwapExecuteResponse × List Action :=
  if !env.relayer.enabled then
    (.error ⟨503, "Relayer service is currently disabled"⟩, [])
  else match validateProofJob env.job with
  | .error e => (.error e, [])
  | .ok (job, proof_hex, nullifier_hex) =>
    match env.quote with
    | .error e => (.error ⟨502, "Swap quote unavailable: " ++ e⟩, [])
    | .ok quote =>
      match hexToBytes? nullifier_hex, hexToBytes? proof_hex with
      | some nullifier, some proof =>
        match relay_unshield env.relayer env.pubkeyValid env.unshieldSubmit
            nullifier env.relayer_public_key job.amount proof job.denomination with
        | (.error e, uacts) => (.error ⟨e.status_code, e.message⟩, uacts)
        | (.ok unshield_result, uacts) =>
          let fee := unshield_result.fee_paid
          match env.swapTxBuild with
          | .error _ =>
            (.ok { unshieldSignature := unshield_result.signature, swapSignature := "",
                   outputAmount := "0", outputMint := req.output_mint,
                   recipient := req.recipient, fee := fee }, uacts)
          | .ok _ =>
            match env.swapSend with
            | .error _ =>
              (.ok { unshieldSignature := unshield_result.signature, swapSignature := "",
                     outputAmount := "0", outputMint := req.output_mint,
                     recipient := req.recipient, fee := fee },
               uacts ++ [.swapSubmit])
            | .ok swap_signature =>
              (.ok { unshieldSignature := unshield_result.signature,
                     swapSignature := swap_signature,
                     outputAmount := quote.out_amount, outputMint := req.output_mint,
                     recipient := req.recipient, fee := fee },
               uacts ++ [.swapSubmit])
      | _, _ => (.error ⟨500, "Unshield failed"⟩, [])

/-- `raydium.get_quote` failure: a `RaydiumAPIError` with its transient flag,
or any other exception. -/
inductive RayQuoteErr where
  | api (message : String) (is_transient : Bool)
  | other (message : String)
deriving Repr, DecidableEq

/-- `ensure_relayer_funded` (swap.py lines 266-288): on a devnet RPC URL,
read the relayer balance (a raised read is swallowed) and request an airdrop
when it is below the 2-SOL minimum (airdrop failures are swallowed, but the
request was made). -/
def ensure_relayer_funded (rpcUrlIsDevnet : Bool) (balanceRead : Option Int) :
    List Action :=
  if !rpcUrlIsDevnet then []
  else match balanceRead with
    | none => []
    | some balance =>
      if balance < MIN_RELAYER_BALANCE_LAMPORTS then
        [.airdropRequest AIRDROP_AMOUNT_LAMPORTS]
      else []

/-- The balance-poll loop of step 3.5 (swap.py lines 654-668): up to five
`get_token_account_balance` reads; `none` embeds a raised read or an absent
value; a positive observed amount stops the loop, a zero one is recorded and
polling continues. -/
def pollBalanceLoop : List (Option Int) → Nat → Int → Int
  | _, 0, acc => acc
  | [], _ + 1, acc => acc
  | c :: rest, f + 1, acc =>
    match c with
    | some n => if n > 0 then n else pollBalanceLoop rest f n
    | none => pollBalanceLoop rest f acc

/-- The transfer-retry loop of step 4 (swap.py lines 700-717): up to
`MAX_TRANSFER_RETRIES` calls to `transfer_tokens_to_recipient`; `none` embeds
a raised attempt.  Returns the signature (if any) and the number of attempts
made. -/
def transferLoop : List (Option String) → Nat → Option String × Nat
  | _, 0 => (none, 0)
  | [], f + 1 => (none, f + 1)
  | a :: rest, f + 1 =>
    match a with
    | some sig => (some sig, 1)
    | none =>
      let t := transferLoop rest f
      (t.1, t.2 + 1)

/-- Environment of `_handle_swap_failure_with_sol_fallback` (swap.py lines
748-828): the custodial balance the RPC would report, whether the
`get_balance` read returns at all, and the outcome of
`send_sol_to_recipient`. -/
structure FallbackEnv where
  relayer_balance : Int
  balanceReadOk : Bool
  sendOutcome : Except Unit String

/-- The send half of the fallback: a successful send reports the fallback
signature as the transfer signature with the output asset reset to SOL; a
failed send reports the funds-stuck outcome.  Either way the transfer was
attempted with `sol_amount` lamports. -/
def fallbackSend (env : FallbackEnv) (req : SwapExecuteRequest)
    (unshield_result : RelayResult) (fee sol_amount : Int) :
    SwapExecuteResponse × List Action :=
  match env.sendOutcome with
  | .ok fallback_sig =>
    ({ unshieldSignature := unshield_result.signature, swapSignature := "",
       transferSignature := fallback_sig, outputAmount := toString sol_amount,
       outputMint := SOL_MINT, recipient := req.recipient, fee := fee },
     [.solSend sol_amount])
  | .error _ =>
    ({ unshieldSignature := unshield_result.signature, swapSignature := "",
       transferSignature := "", outputAmount := "0",
       outputMint := req.output_mint, recipient := req.recipient, fee := fee },
     [.solSend sol_amount])

/-- `_handle_swap_failure_with_sol_fallback` (swap.py lines 748-828).  When
the balance read succeeds: send `min(original_amount - fee, balance -
MIN_SOL_RESERVE)`, or return the unshield-only outcome without any transfer if
that is ≤ 0.  When the balance read raises: fall back to sending
`original_amount - fee` with no cap (the source's `except` branch). -/
def handle_swap_failure_with_sol_fallback (env : FallbackEnv)
    (req : SwapExecuteRequest) (unshield_result : RelayResult)
    (fee original_amount : Int) : SwapExecuteResponse × List Action :=
  if env.balanceReadOk then
    let available_sol := env.relayer_balance - MIN_SOL_RESERVE
    let intended_amount := original_amount - fee
    let sol_amount := min intended_amount available_sol
    if sol_amount ≤ 0 then
      ({ unshieldSignature := unshield_result.signature, swapSignature := "",
         transferSignature := "", outputAmount := "0",
         outputMint := req.output_mint, recipient := req.recipient, fee := fee },
       [])
    else fallbackSend env req unshield_result fee sol_amount
  else fallbackSend env req unshield_result fee (original_amount - fee)

/-- Environment of `execute_swap_devnet` (swap.py lines 469-745): each
external call's outcome in program order.  Token-program and decimals
detection (step 1.5) are best-effort external reads whose values the claims
never consult; keypair loading is assumed to succeed (cached before use, as
on mainnet); `Pubkey.from_string` of the request fields is assumed to
succeed. -/
structure DevnetEnv where
  relayer : RelayerSvc
  relayer_public_key : String
  pubkeyValid : String → Bool
  job : Option ProofJob
  /-- step 0, `ensure_relayer_funded`: is the RPC URL a devnet URL. -/
  rpcUrlIsDevnet : Bool
  /-- step 0: the relayer balance read, `none` when it raises. -/
  relayerBalanceRead : Option Int
  /-- step 1: `raydium.get_quote`. -/
  quote : Except RayQuoteErr QuoteResponse
  /-- step 2: `client.submit_unshield_transaction` inside `relay_unshield`. -/
  unshieldSubmit : Except String String
  /-- step 2.5: `ensure_ata_exists` (exceptions swallowed); `.ok true` means
  the recipient ATA was created. -/
  ensureAtaPre : Except Unit Bool
  /-- step 3: `raydium.get_swap_transaction` + deserialize + re-sign. -/
  swapTxBuild : Except Unit Unit
  /-- step 3: `send_raw_transaction`. -/
  swapSend : Except Unit String
  /-- step 3: `confirm_transaction`. -/
  swapConfirm : Except Unit Unit
  /-- step 3.5: the balance-poll reads. -/
  balanceChecks : List (Option Int)
  /-- bug fix #3: `get_account_info(recipient_ata)`; `.ok b` = account exists. -/
  recipientAtaInfo : Except Unit Bool
  /-- bug fix #3: the re-run of `ensure_ata_exists` when absent. -/
  ensureAtaRecheck : Except Unit Bool
  /-- step 4: the transfer attempts. -/
  transferAttempts : List (Option String)
  /-- the fallback helper's environment. -/
  fallback : FallbackEnv

/-- `execute_swap_devnet` (swap.py lines 469-745): validate, best-effort
airdrop, quote, unshield, best-effort recipient-ATA creation, swap submit +
confirm, balance poll, recipient-ATA re-check, transfer retry; every failure
after the swap step enters `_handle_swap_failure_with_sol_fallback`, and a
transfer exhaustion returns the partial outcome with the actually observed
token amount. -/
def execute_swap_devnet (env : DevnetEnv) (req : SwapExecuteRequest) :
    Except HTTPException SwapExecuteResponse × List Action :=
  if !env.relayer.enabled then
    (.error ⟨503, "Relayer service is currently disabled"⟩, [])
  else match validateProofJob env.job with
  | .error e => (.error e, [])
  | .ok (job, proof_hex, nullifier_hex) =>
    let acts0 := ensure_relayer_funded env.rpcUrlIsDevnet env.relayerBalanceRead
    match env.quote with
    | .error (.api msg is_transient) =>
        (.error ⟨if is_transient then 503 else 502,
                 "Raydium quote unavailable: " ++ msg⟩, acts0)
    | .error (.other msg) =>
        (.error ⟨502, "Raydium quote unavailable: " ++ msg⟩, acts0)
    | .ok _quote =>
      match hexToBytes? nullifier_hex, hexToBytes? proof_hex with
      | some nullifier, some proof =>
        match relay_unshield env.relayer env.pubkeyValid env.unshieldSubmit
            nullifier env.relayer_public_key job.amount proof job.denomination with
        | (.error e, uacts) => (.error ⟨e.status_code, e.message⟩, acts0 ++ uacts)
        | (.ok unshield_result, uacts) =>
          let fee := unshield_result.fee_paid
          let acts1 := acts0 ++ uacts ++
            (match env.ensureAtaPre with
             | .ok true => [Action.ataCreate]
             | _ => [])
          match env.swapTxBuild with
          | .error _ =>
            let fb := handle_swap_failure_with_sol_fallback env.fallback req
              unshield_result fee job.amount
            (.ok fb.1, acts1 ++ fb.2)
          | .ok _ =>
            match env.swapSend with
            | .error _ =>
              let fb := handle_swap_failure_with_sol_fallback env.fallback req
                unshield_result fee job.amount
              (.ok fb.1, acts1 ++ fb.2)
            | .ok swap_signature =>
              let acts2 := acts1 ++ [Action.swapSubmit]
              match env.swapConfirm with
              | .error _ =>
                let fb := handle_swap_failure_with_sol_fallback env.fallback req
                  unshield_result fee job.amount
                (.ok fb.1, acts2 ++ fb.2)
              | .ok _ =>
                let actual_token_amount := pollBalanceLoop env.balanceChecks 5 0
                if actual_token_amount = 0 then
                  let fb := handle_swap_failure_with_sol_fallback env.fallback req
                    unshield_result fee job.amount
                  (.ok fb.1, acts2 ++ fb.2)
                else
                  let acts3 := acts2 ++
                    (match env.recipientAtaInfo with
                     | .ok false =>
                       (match env.ensureAtaRecheck with
                        | .ok true => [Action.ataCreate]
                        | _ => [])
                     | _ => [])
                  let token_amount := actual_token_amount
                  let tl := transferLoop env.transferAttempts MAX_TRANSFER_RETRIES
                  let acts4 := acts3 ++ List.replicate tl.2 (.tokenTransfer token_amount)
                  match tl.1 with
                  | none =>
                    (.ok { unshieldSignature := unshield_result.signature,
                           swapSignature := swap_signature, transferSignature := "",
                           outputAmount := toString token_amount,
                           outputMint := req.output_mint, recipient := req.recipient,
                           fee := fee }, acts4)
                  | some transfer_signature =>
                    (.ok { unshieldSignature := unshield_result.signature,
                           swapSignature := swap_signature,
                           transferSignature := transfer_signature,
                           outputAmount := toString token_amount,
                           outputMint := req.output_mint, recipient := req.recipient,
                           fee := fee }, acts4)
      | _, _ => (.error ⟨500, "Unshield failed"⟩, acts0)

/-! ## Claim C3 -/

/-- C3 counterexample: when the custodial balance read raises (the source's
`except` branch, line 792-794 of swap.py), the fallback sends
`original_amount - fee` with no cap.  With a custodial balance of 0, fee 5000
and original amount 1000000, it transfers 995000 lamports although
`balance - MIN_SOL_RESERVE = -5000`, exceeding the custodial-balance bound;
so the claim's "never exceeds (current custodial balance − the fixed safety
reserve)" fails as stated. -/
theorem C3_fallback_counterexample :
    Action.solSend 995000 ∈
      (handle_swap_failure_with_sol_fallback ⟨0, false, .ok "fbsig"⟩
        ⟨"j", "recip", "mint"⟩ ⟨"usig", 5000, 1000000, "rel"⟩ 5000 1000000).2
    ∧ ¬((995000 : Int) ≤ 0 - MIN_SOL_RESERVE) := by
  constructor
  · simp [handle_swap_failure_with_sol_fallback, fallbackSend]
  · decide

/-- C3 (amended): in every fallback in which the custodial balance query
succeeds, the amount transferred never exceeds `original_amount - fee` nor
`balance - MIN_SOL_RESERVE`, and if the lesser of the two is ≤ 0, no fallback
transfer is attempted and the unshield-only partial outcome is returned.
(When the balance query raises, the source instead sends
`original_amount - fee` uncapped.) -/
theorem C3_fallback_bounds (env : FallbackEnv) (req : SwapExecuteRequest)
    (u : RelayResult) (fee original_amount : Int)
    (hread : env.balanceReadOk = true) :
    (∀ amt, Action.solSend amt ∈
        (handle_swap_failure_with_sol_fallback env req u fee original_amount).2 →
      amt ≤ original_amount - fee ∧ amt ≤ env.relayer_balance - MIN_SOL_RESERVE)
    ∧ (min (original_amount - fee) (env.relayer_balance - MIN_SOL_RESERVE) ≤ 0 →
      handle_swap_failure_with_sol_fallback env req u fee original_amount
        = ({ unshieldSignature := u.signature, swapSignature := "",
             transferSignature := "", outputAmount := "0",
             outputMint := req.output_mint, recipient := req.recipient,
             fee := fee }, [])) := by
  constructor
  · intro amt hmem
    unfold handle_swap_failure_with_sol_fallback at hmem
    simp only [hread, if_true] at hmem
    by_cases hle : min (original_amount - fee) (env.relayer_balance - MIN_SOL_RESERVE) ≤ 0
    · simp [hle] at hmem
    · simp only [hle, if_false] at hmem
      unfold fallbackSend at hmem
      cases hs : env.sendOutcome <;> simp [hs] at hmem <;>
        rw [hmem] <;> exact ⟨min_le_left _ _, min_le_right _ _⟩
  · intro hle
    unfold handle_swap_failure_with_sol_fallback
    simp [hread, hle]

/-- C3 witness: the amended bounds at a concrete fallback whose balance read
succeeds. -/
theorem C3_fallback_bounds_witness :
    (∀ amt, Action.solSend amt ∈
        (handle_swap_failure_with_sol_fallback ⟨100000, true, .ok "fbsig"⟩
          ⟨"j", "recip", "mint"⟩ ⟨"usig", 5000, 1000000, "rel"⟩ 5000 1000000).2 →
      amt ≤ 1000000 - 5000 ∧ amt ≤ 100000 - MIN_SOL_RESERVE)
    ∧ (min ((1000000 : Int) - 5000) (100000 - MIN_SOL_RESERVE) ≤ 0 →
      handle_swap_failure_with_sol_fallback ⟨100000, true, .ok "fbsig"⟩
          ⟨"j", "recip", "mint"⟩ ⟨"usig", 5000, 1000000, "rel"⟩ 5000 1000000
        = ({ unshieldSignature := "usig", swapSignature := "",
             transferSignature := "", outputAmount := "0",
             outputMint := "mint", recipient := "recip", fee := 5000 }, [])) :=
  C3_fallback_bounds ⟨100000, true, .ok "fbsig"⟩ ⟨"j", "recip", "mint"⟩
    ⟨"usig", 5000, 1000000, "rel"⟩ 5000 1000000 rfl

/-! ## Helper lemmas for the saga claims -/

theorem ensure_relayer_funded_airdrop_only (b : Bool) (r : Option Int) :
    ∀ a ∈ ensure_relayer_funded b r, ∃ l, a = Action.airdropRequest l := by
  intro a ha
  unfold ensure_relayer_funded at ha
  cases b with
  | false => simp at ha
  | true =>
    cases r with
    | none => simp at ha
    | some v =>
      by_cases hv : v < MIN_RELAYER_BALANCE_LAMPORTS
      · simp [hv] at ha
        exact ⟨_, ha⟩
      · simp [hv] at ha

theorem relay_unshield_ok_sig (svc : RelayerSvc) (pubkeyValid : String → Bool)
    (sig : String) (nullifier : List Nat) (recipient : String) (amount : Int)
    (proof : List Nat) (denom : Int) (u : RelayResult) (acts : List Action)
    (h : relay_unshield svc pubkeyValid (.ok sig) nullifier recipient amount
          proof denom = (.ok u, acts)) :
    u.signature = sig := by
  by_cases hen : svc.enabled
  case neg => simp [relay_unshield, hen] at h
  by_cases hn : nullifier.length = 32
  case neg => simp [relay_unshield, hen, hn] at h
  by_cases hp : pubkeyValid recipient
  case neg => simp [relay_unshield, hen, hn, hp] at h
  have h1 := congrArg Prod.fst h
  simp only [relay_unshield, hen, hn, hp, Bool.not_true, Bool.false_eq_true,
    if_false, ite_false, not_true_eq_false] at h1
  rw [← Except.ok.inj h1]

theorem fallback_unshield_sig (env : FallbackEnv) (req : SwapExecuteRequest)
    (u : RelayResult) (fee orig : Int) :
    (handle_swap_failure_with_sol_fallback env req u fee orig).1.unshieldSignature
      = u.signature := by
  by_cases hb : env.balanceReadOk
  · simp only [handle_swap_failure_with_sol_fallback, hb, if_true]
    split
    · rfl
    · unfold fallbackSend
      cases env.sendOutcome <;> rfl
  · simp only [handle_swap_failure_with_sol_fallback, hb]
    simp only [Bool.false_eq_true, if_false]
    unfold fallbackSend
    cases env.sendOutcome <;> rfl

/-! ## Claim C2 -/

/-- C2: whenever the quote call fails, both sagas abort with an HTTP error
before `relay_unshield` is ever invoked: the mainnet saga has performed no
side effect at all, and the devnet saga at most the best-effort devnet faucet
airdrop of step 0 — in particular no unshield submission, swap, transfer or
SOL send, so no unshield signature is produced and no client funds move. -/
theorem C2_quote_precedes_unshield (envM : MainnetEnv) (envD : DevnetEnv)
    (req : SwapExecuteRequest) :
    (∀ e, envM.quote = .error e →
      ∃ he, execute_swap envM req = (.error he, []))
    ∧ (∀ e, envD.quote = .error e →
      ∃ he acts, execute_swap_devnet envD req = (.error he, acts)
        ∧ ∀ a ∈ acts, ∃ l, a = Action.airdropRequest l) := by
  constructor
  · intro e hq
    by_cases hen : envM.relayer.enabled
    case neg => exact ⟨⟨503, "Relayer service is currently disabled"⟩,
      by simp [execute_swap, hen]⟩
    cases hv : validateProofJob envM.job with
    | error he => exact ⟨he, by simp [execute_swap, hen, hv]⟩
    | ok t =>
      obtain ⟨job, ph, nh⟩ := t
      exact ⟨⟨502, "Swap quote unavailable: " ++ e⟩,
        by simp [execute_swap, hen, hv, hq]⟩
  · intro e hq
    by_cases hen : envD.relayer.enabled
    case neg =>
      refine ⟨⟨503, "Relayer service is currently disabled"⟩, [], ?_, by simp⟩
      simp [execute_swap_devnet, hen]
    cases hv : validateProofJob envD.job with
    | error he =>
      refine ⟨he, [], ?_, by simp⟩
      simp [execute_swap_devnet, hen, hv]
    | ok t =>
      obtain ⟨job, ph, nh⟩ := t
      cases e with
      | api msg tr =>
        refine ⟨⟨if tr then 503 else 502, "Raydium quote unavailable: " ++ msg⟩,
          ensure_relayer_funded envD.rpcUrlIsDevnet envD.relayerBalanceRead, ?_,
          ensure_relayer_funded_airdrop_only _ _⟩
        simp [execute_swap_devnet, hen, hv, hq]
      | other msg =>
        refine ⟨⟨502, "Raydium quote unavailable: " ++ msg⟩,
          ensure_relayer_funded envD.rpcUrlIsDevnet envD.relayerBalanceRead, ?_,
          ensure_relayer_funded_airdrop_only _ _⟩
        simp [execute_swap_devnet, hen, hv, hq]

/-! ## Claim C1 -/

/-- C1: in both sagas, every returned `SwapExecuteResponse` (responses are
only returned on paths after a successful unshield: swap failure, fallback
success, fallback failure, fallback-sizing shortfall, transfer exhaustion and
full success) carries the unshield submission's signature in
`unshieldSignature`; when the chain returned a non-empty signature, the field
is therefore never empty. -/
theorem C1_unshield_signature_propagates (envM : MainnetEnv) (envD : DevnetEnv)
    (req : SwapExecuteRequest) (sigM sigD : String)
    (respM respD : SwapExecuteResponse) :
    (envM.unshieldSubmit = .ok sigM → sigM ≠ "" →
      (execute_swap envM req).1 = .ok respM →
      respM.unshieldSignature = sigM ∧ respM.unshieldSignature ≠ "")
    ∧ (envD.unshieldSubmit = .ok sigD → sigD ≠ "" →
      (execute_swap_devnet envD req).1 = .ok respD →
      respD.unshieldSignature = sigD ∧ respD.unshieldSignature ≠ "") := by
  constructor
  · intro hsub hne hok
    by_cases hen : envM.relayer.enabled
    case neg => simp [execute_swap, hen] at hok
    cases hv : validateProofJob envM.job with
    | error he => simp [execute_swap, hen, hv] at hok
    | ok t =>
      obtain ⟨job, ph, nh⟩ := t
      cases hq : envM.quote with
      | error e => simp [execute_swap, hen, hv, hq] at hok
      | ok quote =>
        cases hnb : hexToBytes? nh with
        | none => simp [execute_swap, hen, hv, hq, hnb] at hok
        | some nb =>
          cases hpb : hexToBytes? ph with
          | none => simp [execute_swap, hen, hv, hq, hnb, hpb] at hok
          | some pb =>
            cases hrel : relay_unshield envM.relayer envM.pubkeyValid
                envM.unshieldSubmit nb envM.relayer_public_key job.amount pb
                job.denomination with
            | mk r uacts =>
              cases r with
              | error e =>
                simp [execute_swap, hen, hv, hq, hnb, hpb, hrel] at hok
              | ok u =>
                have husig : u.signature = sigM := by
                  rw [hsub] at hrel
                  exact relay_unshield_ok_sig _ _ _ _ _ _ _ _ _ _ hrel
                cases hb : envM.swapTxBuild with
                | error v =>
                  simp [execute_swap, hen, hv, hq, hnb, hpb, hrel, hb] at hok
                  rw [← hok]
                  exact ⟨husig, husig ▸ hne⟩
                | ok v =>
                  cases hsend : envM.swapSend with
                  | error w =>
                    simp [execute_swap, hen, hv, hq, hnb, hpb, hrel, hb, hsend] at hok
                    rw [← hok]
                    exact ⟨husig, husig ▸ hne⟩
                  | ok w =>
                    simp [execute_swap, hen, hv, hq, hnb, hpb, hrel, hb, hsend] at hok
                    rw [← hok]
                    exact ⟨husig, husig ▸ hne⟩
  · intro hsub hne hok
    by_cases hen : envD.relayer.enabled
    case neg => simp [execute_swap_devnet, hen] at hok
    cases hv : validateProofJob envD.job with
    | error he => simp [execute_swap_devnet, hen, hv] at hok
    | ok t =>
      obtain ⟨job, ph, nh⟩ := t
      cases hq : envD.quote with
      | error e =>
        cases e <;> simp [execute_swap_devnet, hen, hv, hq] at hok
      | ok quote =>
        cases hnb : hexToBytes? nh with
        | none => simp [execute_swap_devnet, hen, hv, hq, hnb] at hok
        | some nb =>
          cases hpb : hexToBytes? ph with
          | none => simp [execute_swap_devnet, hen, hv, hq, hnb, hpb] at hok
          | some pb =>
            cases hrel : relay_unshield envD.relayer envD.pubkeyValid
                envD.unshieldSubmit nb envD.relayer_public_key job.amount pb
                job.denomination with
            | mk r uacts =>
              cases r with
              | error e =>
                simp [execute_swap_devnet, hen, hv, hq, hnb, hpb, hrel] at hok
              | ok u =>
                have husig : u.signature = sigD := by
                  rw [hsub] at hrel
                  exact relay_unshield_ok_sig _ _ _ _ _ _ _ _ _ _ hrel
                have hfb := fallback_unshield_sig envD.fallback req u
                  u.fee_paid job.amount
                cases hb : envD.swapTxBuild with
                | error v =>
                  simp [execute_swap_devnet, hen, hv, hq, hnb, hpb, hrel, hb] at hok
                  rw [← hok]
                  exact ⟨hfb.trans husig, (hfb.trans husig) ▸ hne⟩
                | ok v =>
                  cases hsend : envD.swapSend with
                  | error w =>
                    simp [execute_swap_devnet, hen, hv, hq, hnb, hpb, hrel,
                      hb, hsend] at hok
                    rw [← hok]
                    exact ⟨hfb.trans husig, (hfb.trans husig) ▸ hne⟩
                  | ok w =>
                    cases hconf : envD.swapConfirm with
                    | error x =>
                      simp [execute_swap_devnet, hen, hv, hq, hnb, hpb, hrel,
                        hb, hsend, hconf] at hok
                      rw [← hok]
                      exact ⟨hfb.trans husig, (hfb.trans husig) ▸ hne⟩
                    | ok x =>
                      by_cases hpoll : pollBalanceLoop envD.balanceChecks 5 0 = 0
                      · simp [execute_swap_devnet, hen, hv, hq, hnb, hpb, hrel,
                          hb, hsend, hconf, hpoll] at hok
                        rw [← hok]
                        exact ⟨hfb.trans husig, (hfb.trans husig) ▸ hne⟩
                      · cases htl : (transferLoop envD.transferAttempts
                            MAX_TRANSFER_RETRIES).1 with
                        | none =>
                          simp [execute_swap_devnet, hen, hv, hq, hnb, hpb, hrel,
                            hb, hsend, hconf, hpoll, htl] at hok
                          rw [← hok]
                          exact ⟨husig, husig ▸ hne⟩
                        | some ts =>
                          simp [execute_swap_devnet, hen, hv, hq, hnb, hpb, hrel,
                            hb, hsend, hconf, hpoll, htl] at hok
                          rw [← hok]
                          exact ⟨husig, husig ▸ hne⟩

/-! ## Claim C9 -/

/-- C9: in the devnet two-transaction saga, when the swap submits and
confirms, the balance poll observes tokens, and all transfer attempts fail,
the returned outcome carries the (non-empty) swap signature, an empty
transfer signature, and an output amount equal to the token balance actually
observed in the custodial ATA — not the quote's estimated output amount
(which the response never consults on this path). -/
theorem C9_transfer_exhaustion (env : DevnetEnv) (req : SwapExecuteRequest)
    (swapSig : String) (resp : SwapExecuteResponse)
    (hbuild : env.swapTxBuild = .ok ())
    (hsend : env.swapSend = .ok swapSig) (hne : swapSig ≠ "")
    (hconf : env.swapConfirm = .ok ())
    (hpoll : pollBalanceLoop env.balanceChecks 5 0 ≠ 0)
    (htr : (transferLoop env.transferAttempts MAX_TRANSFER_RETRIES).1 = none)
    (hok : (execute_swap_devnet env req).1 = .ok resp) :
    resp.swapSignature = swapSig ∧ resp.swapSignature ≠ ""
    ∧ resp.transferSignature = ""
    ∧ resp.outputAmount = toString (pollBalanceLoop env.balanceChecks 5 0) := by
  by_cases hen : env.relayer.enabled
  case neg => simp [execute_swap_devnet, hen] at hok
  cases hv : validateProofJob env.job with
  | error he => simp [execute_swap_devnet, hen, hv] at hok
  | ok t =>
    obtain ⟨job, ph, nh⟩ := t
    cases hq : env.quote with
    | error e => cases e <;> simp [execute_swap_devnet, hen, hv, hq] at hok
    | ok quote =>
      cases hnb : hexToBytes? nh with
      | none => simp [execute_swap_devnet, hen, hv, hq, hnb] at hok
      | some nb =>
        cases hpb : hexToBytes? ph with
        | none => simp [execute_swap_devnet, hen, hv, hq, hnb, hpb] at hok
        | some pb =>
          cases hrel : relay_unshield env.relayer env.pubkeyValid
              env.unshieldSubmit nb env.relayer_public_key job.amount pb
              job.denomination with
          | mk r uacts =>
            cases r with
            | error e =>
              simp [execute_swap_devnet, hen, hv, hq, hnb, hpb, hrel] at hok
            | ok u =>
              simp [execute_swap_devnet, hen, hv, hq, hnb, hpb, hrel, hbuild,
                hsend, hconf, hpoll, htr] at hok
              rw [← hok]
              exact ⟨rfl, hne, rfl, rfl⟩

/-! ## Concrete saga runs used by the witnesses -/

/-- 64 hex characters, decoding to a 32-byte nullifier. -/
def sampleNullifierHex : String := String.mk (List.replicate 64 'a')

def sampleJob : ProofJob :=
  { id := "job-1", status := .completed, progress := 100,
    stage := some "finalizing", created_at := 0,
    result := some (.dict ⟨some (.str "bb"), some (.str sampleNullifierHex), true⟩),
    error := none, commitment := "c", secret := "s", amount := 1000000000,
    recipient := "recip", denomination := 0 }

def sampleReq : SwapExecuteRequest := ⟨"job-1", "recip", "mint"⟩

def sampleQuote : QuoteResponse :=
  ⟨SOL_MINT, "mint", "1000000000", "42", "40", "0", 100⟩

/-- A mainnet run whose swap submission raises after a successful unshield. -/
def sampleMainnetEnv : MainnetEnv :=
  { relayer := ⟨true, 30⟩, relayer_public_key := "relpk",
    pubkeyValid := fun _ => true, job := some sampleJob,
    quote := .ok sampleQuote, unshieldSubmit := .ok "usig",
    swapTxBuild := .ok (), swapSend := .error () }

/-- A devnet run that swaps and confirms but exhausts all transfer retries. -/
def sampleDevnetEnv : DevnetEnv :=
  { relayer := ⟨true, 30⟩, relayer_public_key := "relpk",
    pubkeyValid := fun _ => true, job := some sampleJob,
    rpcUrlIsDevnet := true, relayerBalanceRead := some 2500000000,
    quote := .ok sampleQuote, unshieldSubmit := .ok "usig",
    ensureAtaPre := .ok false, swapTxBuild := .ok (), swapSend := .ok "ssig",
    swapConfirm := .ok (), balanceChecks := [some 7],
    recipientAtaInfo := .ok true, ensureAtaRecheck := .ok false,
    transferAttempts := [none, none, none],
    fallback := ⟨0, true, .ok "fbsig"⟩ }

def sampleMainnetEnvQErr : MainnetEnv :=
  { sampleMainnetEnv with quote := .error "no route" }

def sampleDevnetEnvQErr : DevnetEnv :=
  { sampleDevnetEnv with quote := .error (.api "no route" false) }

/-- C1 witness: concrete mainnet (swap failure) and devnet (transfer
exhaustion) runs both carry the unshield signature. -/
theorem C1_unshield_signature_propagates_witness :
    ((⟨"usig", "", "", "0", "mint", "recip", 3000000⟩
        : SwapExecuteResponse).unshieldSignature = "usig"
      ∧ (⟨"usig", "", "", "0", "mint", "recip", 3000000⟩
        : SwapExecuteResponse).unshieldSignature ≠ "")
    ∧ ((⟨"usig", "ssig", "", "7", "mint", "recip", 3000000⟩
        : SwapExecuteResponse).unshieldSignature = "usig"
      ∧ (⟨"usig", "ssig", "", "7", "mint", "recip", 3000000⟩
        : SwapExecuteResponse).unshieldSignature ≠ "") :=
  ⟨(C1_unshield_signature_propagates sampleMainnetEnv sampleDevnetEnv sampleReq
      "usig" "usig" ⟨"usig", "", "", "0", "mint", "recip", 3000000⟩
      ⟨"usig", "ssig", "", "7", "mint", "recip", 3000000⟩).1
    rfl (by decide) (by rfl),
   (C1_unshield_signature_propagates sampleMainnetEnv sampleDevnetEnv sampleReq
      "usig" "usig" ⟨"usig", "", "", "0", "mint", "recip", 3000000⟩
      ⟨"usig", "ssig", "", "7", "mint", "recip", 3000000⟩).2
    rfl (by decide) (by rfl)⟩

/-- C2 witness: concrete quote failures abort both sagas with no fund
movement. -/
theorem C2_quote_precedes_unshield_witness :
    (∃ he, execute_swap sampleMainnetEnvQErr sampleReq = (.error he, []))
    ∧ (∃ he acts,
        execute_swap_devnet sampleDevnetEnvQErr sampleReq = (.error he, acts)
        ∧ ∀ a ∈ acts, ∃ l, a = Action.airdropRequest l) :=
  ⟨(C2_quote_precedes_unshield sampleMainnetEnvQErr sampleDevnetEnvQErr
      sampleReq).1 "no route" rfl,
   (C2_quote_precedes_unshield sampleMainnetEnvQErr sampleDevnetEnvQErr
      sampleReq).2 (.api "no route" false) rfl⟩

/-- C9 witness: the concrete transfer-exhaustion run reports the observed
balance 7, not the quote estimate 42. -/
theorem C9_transfer_exhaustion_witness :
    (⟨"usig", "ssig", "", "7", "mint", "recip", 3000000⟩
      : SwapExecuteResponse).swapSignature = "ssig"
    ∧ (⟨"usig", "ssig", "", "7", "mint", "recip", 3000000⟩
      : SwapExecuteResponse).swapSignature ≠ ""
    ∧ (⟨"usig", "ssig", "", "7", "mint", "recip", 3000000⟩
      : SwapExecuteResponse).transferSignature = ""
    ∧ (⟨"usig", "ssig", "", "7", "mint", "recip", 3000000⟩
      : SwapExecuteResponse).outputAmount
        = toString (pollBalanceLoop sampleDevnetEnv.balanceChecks 5 0) :=
  C9_transfer_exhaustion sampleDevnetEnv sampleReq "ssig"
    ⟨"usig", "ssig", "", "7", "mint", "recip", 3000000⟩
    rfl rfl (by decide) rfl (by decide) rfl (by rfl)

end WhaleVault
